import Mathlib

set_option linter.unusedVariables false

/-!
# Verification of the ToSpeech asynchronous job orchestration subsystem

Shallow embedding of `Backend/main.py` and `Backend/tasks.py`:
the signed artifact access gateway (`sign_path` / `get_audio_file`),
the single-slot model residency cache (`load_model_pipeline`),
the Celery worker task (`generate_audio_task`), the cancellation
controller (`cancel_task`) and the status endpoint (`get_task_status`).

External collaborators (HMAC-SHA256, the file system, torch model loading,
the synthesis call, the Redis/Valkey store contents and the result backend)
are abstracted as explicit function parameters or environment fields; the
control flow, string formats, branch conditions and orderings of the Python
source are translated faithfully.
-/

namespace ToSpeech

/-! ## Python string primitives

Python's `str` operations used by the source, modelled on the character
lists underlying Lean strings (so that they evaluate by kernel reduction). -/

/-- Python `path.split("/")[-1]`: the characters after the last `'/'`
(the whole string when no `'/'` occurs).  This is also exactly
`os.path.basename` on POSIX (`p[p.rfind('/') + 1:]`). -/
def afterLastSep (s : String) : String :=
  ⟨s.data.foldl (fun acc c => if c = '/' then [] else acc ++ [c]) []⟩

/-- Python `s.startswith(p)`. -/
def pyStartsWith (s p : String) : Bool :=
  p.data.isPrefixOf s.data

/-- Python `s.endswith(p)`. -/
def pyEndsWith (s p : String) : Bool :=
  p.data.isSuffixOf s.data

/-- Python `sub in s` (substring containment). -/
def pyContains (s sub : String) : Bool :=
  s.data.tails.any (fun t => sub.data.isPrefixOf t)

/-- Decidable equality of `Except` results (missing from the prelude). -/
instance {ε α : Type} [DecidableEq ε] [DecidableEq α] :
    DecidableEq (Except ε α) := fun a b =>
  match a, b with
  | .error e, .error f =>
    if h : e = f then .isTrue (by rw [h])
    else .isFalse (fun hh => h (Except.error.injEq .. ▸ hh))
  | .error _, .ok _ => .isFalse (fun hh => Except.noConfusion hh)
  | .ok _, .error _ => .isFalse (fun hh => Except.noConfusion hh)
  | .ok x, .ok y =>
    if h : x = y then .isTrue (by rw [h])
    else .isFalse (fun hh => h (Except.ok.injEq .. ▸ hh))

/-! ## Signed artifact access gateway (`Backend/main.py`)

`SECRET_KEY` is fixed configuration; `hmac.new(SECRET_KEY.encode(), data.encode(),
hashlib.sha256).hexdigest()` is abstracted as an opaque function
`mac : String → String` applied to the authenticated `data` string.
-/

/-- Embedding of `create_access_signature` (main.py:154-157):
`data = f"{filename}:{expires_timestamp}"`, then the HMAC of `data`. -/
def create_access_signature (mac : String → String) (filename : String)
    (expires_timestamp : Int) : String :=
  mac (filename ++ ":" ++ toString expires_timestamp)

/-- Embedding of `sign_path` (main.py:159-170).  `now` is
`datetime.utcnow().timestamp()` truncated to an integer; the URL is valid for
60 minutes (`expires = now + 3600`). -/
def sign_path (mac : String → String) (now : Int) (path : String) : String :=
  if path = "" ∨ ¬ pyStartsWith path "/static/" then path
  else
    let filename := afterLastSep path
    let expires := now + 3600
    let signature := create_access_signature mac filename expires
    path ++ "?expires=" ++ toString expires ++ "&signature=" ++ signature

/-- Outcome of `GET /static/{filename}` (main.py:172-196). -/
inductive GatewayResult where
  /-- 403 "Missing signature or expiry" -/
  | missingParams : GatewayResult
  /-- 403 "Link expired" -/
  | expired : GatewayResult
  /-- 403 "Invalid signature" -/
  | invalidSignature : GatewayResult
  /-- 403 "Invalid path" (commonpath containment check failed) -/
  | invalidPath : GatewayResult
  /-- 404 "File not found" -/
  | notFound : GatewayResult
  /-- `FileResponse(file_path)`: the file's bytes are served -/
  | served (filename : String) : GatewayResult
  deriving DecidableEq, Repr

/-- Embedding of `get_audio_file` (main.py:172-196).

* `expires : Int = 0` and `signature : String = ""` are the FastAPI query
  parameter defaults; `if not expires or not signature` is the Python truthiness
  test (an `int` is falsy exactly when it is `0`, a `str` exactly when empty).
* `now` is `datetime.utcnow().timestamp()`.
* `hmac.compare_digest` is a constant-time string equality.
* `escapes f` abstracts the `os.path.commonpath` containment check on
  `os.path.join(AUDIO_DIR, f)` (true when the resolution leaves `AUDIO_DIR`),
  and `fileExists f` abstracts `os.path.exists`. -/
def get_audio_file (mac : String → String) (now : Int)
    (escapes fileExists : String → Bool)
    (filename : String) (expires : Int) (signature : String) : GatewayResult :=
  if expires = 0 ∨ signature = "" then .missingParams
  else if now > expires then .expired
  else if ¬ (signature = create_access_signature mac filename expires) then
    .invalidSignature
  else if escapes filename then .invalidPath
  else if fileExists filename then .served filename
  else .notFound

/-! ## Model residency cache (`Backend/main.py`, `load_model_pipeline`, lines 488-632)

`LOADED_MODELS` is the process-global cache dictionary, modelled as an
association list.  Each cached entry is a dictionary
`{"model": ..., "processor": ..., "type": "vibevoice" | "pipeline", ...}`;
we keep the opaque loaded object as a numeric id plus its `"type"` tag.
The external `from_pretrained` / `pipeline(...)` loaders (including the
device / dtype selection and the flash-attention → SDPA fallback that happen
inside the VibeVoice loader, main.py:526-599) are abstracted as environment
functions returning either a fresh handle id or the raised error message.
The path-existence probe at main.py:511-516 only prints and has no effect. -/

/-- The `"type"` tag stored with a cached model (main.py:608, 625). -/
inductive ModelKind where
  | vibevoice : ModelKind
  | pipeline : ModelKind
  deriving DecidableEq, Repr

/-- A cached model entry: opaque loaded object plus its `"type"` tag. -/
structure Handle where
  id : Nat
  kind : ModelKind
  deriving DecidableEq, Repr

/-- Python exceptions relevant to the worker task boundary
(`tasks.py:276-281`). -/
inductive PyExn where
  /-- `celery.exceptions.SoftTimeLimitExceeded` -/
  | softTimeLimit : PyExn
  /-- `ValueError(msg)`; `str(e)` is `msg` -/
  | valueError (msg : String) : PyExn
  /-- any other `Exception(msg)`; `str(e)` is `msg` -/
  | pyError (msg : String) : PyExn
  deriving DecidableEq, Repr

/-- Observable side effects of one `load_model_pipeline` call, in program
order: clearing `LOADED_MODELS` (main.py:504, which drops the only reference
to the resident model and releases it), the conditional
`torch.cuda.empty_cache()` / `torch.mps.empty_cache()` (main.py:505-508), and
caching a freshly loaded model (main.py:605, 625, 631). -/
inductive CacheEvent where
  | evicted : CacheEvent
  | acceleratorCacheFlushed : CacheEvent
  | loaded (model_name : String) : CacheEvent
  deriving DecidableEq, Repr

/-- External collaborators of `load_model_pipeline`. -/
structure LoadEnv where
  /-- `VIBEVOICE_AVAILABLE` (main.py:60, 64) -/
  vibevoiceAvailable : Bool
  /-- `torch.cuda.is_available() or torch.backends.mps.is_available()` -/
  acceleratorAvailable : Bool
  /-- the custom VibeVoice loader (main.py:525-603), returning an opaque
  loaded object or the message of the exception it raised -/
  vibeLoad : String → Except String Nat
  /-- `pipeline("text-to-speech", model=..., device=device)` (main.py:624) -/
  pipeLoad : String → Except String Nat
  /-- `pipeline("text-to-speech", model=..., device="cpu")` (main.py:630) -/
  pipeLoadCpu : String → Except String Nat

/-- Result of one `load_model_pipeline` call: the returned handle (or the
exception that propagated), the cache dictionary afterwards, and the emitted
events. -/
structure LoadOutcome where
  result : Except PyExn Handle
  cache : List (String × Handle)
  events : List CacheEvent
  deriving DecidableEq, Repr

/-- Dictionary lookup `LOADED_MODELS[model_name]` /
`model_name in LOADED_MODELS`. -/
def cacheLookup : List (String × Handle) → String → Option Handle
  | [], _ => none
  | (k, v) :: rest, name => if k = name then some v else cacheLookup rest name

/-- Embedding of `load_model_pipeline` (main.py:497-632).

* Cache hit (main.py:498-499): return the cached entry, no side effect.
* Otherwise clear the whole cache and flush the accelerator cache
  (main.py:502-508) before loading.
* `"VibeVoice" in model_name and VIBEVOICE_AVAILABLE` (main.py:523) selects
  the custom loader, whose failure is re-raised as
  `Exception(f"Failed to load VibeVoice model: {e}")` (main.py:620) with no
  entry cached.
* Any other model goes through `pipeline(...)` with a CPU fallback
  (main.py:623-632); if the fallback also raises, the exception propagates
  with no entry cached. -/
def load_model_pipeline (env : LoadEnv) (cache : List (String × Handle))
    (model_name : String) : LoadOutcome :=
  match cacheLookup cache model_name with
  | some h => ⟨.ok h, cache, []⟩
  | none =>
    let evictEvents :=
      if cache.isEmpty then ([] : List CacheEvent)
      else
        [CacheEvent.evicted] ++
          (if env.acceleratorAvailable then [CacheEvent.acceleratorCacheFlushed] else [])
    if pyContains model_name "VibeVoice" && env.vibevoiceAvailable then
      match env.vibeLoad model_name with
      | .ok n =>
        let h : Handle := ⟨n, .vibevoice⟩
        ⟨.ok h, [(model_name, h)], evictEvents ++ [.loaded model_name]⟩
      | .error e =>
        ⟨.error (.pyError ("Failed to load VibeVoice model: " ++ e)), [], evictEvents⟩
    else
      match env.pipeLoad model_name with
      | .ok n =>
        let h : Handle := ⟨n, .pipeline⟩
        ⟨.ok h, [(model_name, h)], evictEvents ++ [.loaded model_name]⟩
      | .error _ =>
        match env.pipeLoadCpu model_name with
        | .ok n =>
          let h : Handle := ⟨n, .pipeline⟩
          ⟨.ok h, [(model_name, h)], evictEvents ++ [.loaded model_name]⟩
        | .error e2 => ⟨.error (.pyError e2), [], evictEvents⟩

/-! ## PCM normalization (`Backend/tasks.py`, lines 226-232)

Samples are modelled as exact rationals.  `np.max` of an empty array raises
`ValueError` ("zero-size array to reduction operation maximum which has no
identity"), hence the `Option` result; `astype(np.int16)` is a C float→int
conversion, truncating toward zero, with two's-complement wraparound for
out-of-range values. -/

/-- C float→integer conversion truncates toward zero. -/
def truncTowardZero (q : ℚ) : Int :=
  if 0 ≤ q then ⌊q⌋ else ⌈q⌉

/-- Reinterpret an integer as a 16-bit two's-complement value
(`astype(np.int16)` wraparound). -/
def int16cast (n : Int) : Int :=
  let r := n % 65536
  if r < 32768 then r else r - 65536

/-- `np.float → np.int16` conversion of one sample. -/
def toInt16 (q : ℚ) : Int :=
  int16cast (truncTowardZero q)

/-- `np.max(np.abs(audio_data))`; `none` models the `ValueError` raised on an
empty array. -/
def maxAbsVal : List ℚ → Option ℚ
  | [] => none
  | x :: xs => some (xs.foldl (fun m y => max m |y|) |x|)

/-- Embedding of the 16-bit PCM conversion (tasks.py:229-232):

```
if np.max(np.abs(audio_data)) > 0:
    audio_data = audio_data / np.max(np.abs(audio_data))
audio_data = (audio_data * 32767).astype(np.int16)
``` -/
def normalizePCM (l : List ℚ) : Option (List Int) :=
  match maxAbsVal l with
  | none => none
  | some peak =>
    let normalized := if 0 < peak then l.map (fun x => x / peak) else l
    some (normalized.map (fun x => toInt16 (x * 32767)))

/-- `round(x, 2)`.  Python rounds half to even; this model rounds half up,
which differs only at exact ties (irrelevant to every claim verified here). -/
def round2 (q : ℚ) : ℚ :=
  (⌊q * 100 + 1 / 2⌋ : ℚ) / 100

/-! ## Worker execution engine (`Backend/tasks.py`, `generate_audio_task`) -/

/-- Python f-string interpolation of an optional speaker (`None` prints as
`"None"`). -/
def speakerRepr : Option String → String
  | none => "None"
  | some s => s

/-- Python truthiness of the `speaker` argument (`None` and `""` are falsy). -/
def speakerTruthy : Option String → Bool
  | none => false
  | some s => s != ""

/-- External collaborators of one `generate_audio_task` run. -/
structure TaskEnv where
  /-- environment of the `load_model_pipeline` call (tasks.py:70) -/
  load : LoadEnv
  /-- `LOADED_MODELS` contents when the task starts -/
  cache : List (String × Handle)
  /-- whether `celery_app.backend.get(f'celery-task-meta-<id>')` exists and
  contains `b'REVOKED'` (tasks.py:75-78) -/
  revokedMetaPresent : Bool
  /-- `os.path.exists` on voice asset paths (tasks.py:102, 147) -/
  voiceFileExists : String → Bool
  /-- `os.listdir(voice_dir)` for the standard model's prefix fallback
  (tasks.py:151) -/
  voiceDirListing : List String
  /-- outcome of `model.generate(...)`: the `outputs.speech_outputs` list
  (each flattened to its samples) or the exception it raised (including a
  `SoftTimeLimitExceeded` delivered during the long call) -/
  generate : Except PyExn (List (List ℚ))
  /-- `celery_app.backend.client.exists(f"task_cancelled:<id>")`
  (tasks.py:196, and polled by `stop_check_fn`, tasks.py:34-46) -/
  markerPresent : Bool
  /-- whether `celery_app.AsyncResult(<id>).state == 'REVOKED'`
  (tasks.py:215-221; a raised probe is swallowed, i.e. `false`) -/
  revokedAtSave : Bool
  /-- outcome of the pipeline fallback `pipe(text)` (tasks.py:210-212):
  `(output["audio"], output["sampling_rate"])` or a raised exception -/
  pipe : Except PyExn (List ℚ × Nat)
  /-- `uuid.uuid4()` (tasks.py:235) -/
  uuid : String

/-- Projection of the dictionary returned by `generate_audio_task`.  The
`'completed'` dictionary additionally echoes the inputs and the database row
id (tasks.py:259-270); those echo fields are omitted here. -/
structure TaskResult where
  status : String
  message : String
  file_path : Option String
  duration : Option ℚ
  deriving DecidableEq, Repr

/-- `{'status': 'cancelled', 'message': 'Task was cancelled'}`
(tasks.py:78, 219). -/
def cancelledResult : TaskResult :=
  ⟨"cancelled", "Task was cancelled", none, none⟩

/-- `{'status': 'cancelled', 'message': 'Task was cancelled during
generation'}` (tasks.py:197). -/
def cancelledDuringResult : TaskResult :=
  ⟨"cancelled", "Task was cancelled during generation", none, none⟩

/-- Everything observable about one run of the `try:` body of
`generate_audio_task`: its outcome (a returned dictionary or a raised
exception) together with the side effects in program order. -/
structure BodyOut where
  /-- returned dictionary, or the exception that reached the handlers -/
  result : Except PyExn TaskResult
  /-- the `meta['status']` strings of the `update_state` calls, in order -/
  progress : List String
  /-- voice asset paths probed with `os.path.exists` -/
  voiceLookups : List String
  /-- number of synthesis calls (`model.generate` / `pipe`) started -/
  synthCalls : Nat
  /-- audio filenames written by `scipy.io.wavfile.write` (tasks.py:239) -/
  filesWritten : List String
  /-- number of `AudioHistory` rows committed (tasks.py:244-257) -/
  historyWrites : Nat
  /-- events of the `load_model_pipeline` call -/
  cacheEvents : List CacheEvent
  deriving DecidableEq, Repr

/-- Saving stage (tasks.py:214-274): the pre-save revocation checkpoint, the
duration computation (`round(n_frames / sampling_rate, 2)`, a
`ZeroDivisionError` when the rate is `0`), PCM conversion, file write and
history row.  `lookups`/`synth`/`events` are the effects accumulated so
far. -/
def finishStage (env : TaskEnv) (p lookups : List String) (synth : Nat)
    (events : List CacheEvent) (audio : List ℚ) (rate : Nat) : BodyOut :=
  if env.revokedAtSave then
    ⟨.ok cancelledResult, p, lookups, synth, [], 0, events⟩
  else
    let p2 := p ++ ["Saving audio file..."]
    if rate = 0 then
      ⟨.error (.pyError "division by zero"), p2, lookups, synth, [], 0, events⟩
    else
      let duration_sec := round2 ((audio.length : ℚ) / (rate : ℚ))
      match normalizePCM audio with
      | none =>
        ⟨.error (.pyError
            "zero-size array to reduction operation maximum which has no identity"),
          p2, lookups, synth, [], 0, events⟩
      | some _pcm16 =>
        let filename := "audio_" ++ env.uuid ++ ".wav"
        ⟨.ok ⟨"completed", "", some ("/static/" ++ filename), some duration_sec⟩,
          p2, lookups, synth, [filename], 1, events⟩

/-- The VibeVoice synthesis call and what follows it (tasks.py:127-206): run
`model.generate`, re-check the `task_cancelled:<id>` marker (tasks.py:195-197),
extract `outputs.speech_outputs[0]` at 24000 Hz or raise
`ValueError("No audio generated.")` (tasks.py:199-206). -/
def afterGen (env : TaskEnv) (p lookups : List String)
    (events : List CacheEvent) : BodyOut :=
  match env.generate with
  | .error e => ⟨.error e, p, lookups, 1, [], 0, events⟩
  | .ok outs =>
    if env.markerPresent then
      ⟨.ok cancelledDuringResult, p, lookups, 1, [], 0, events⟩
    else
      match outs with
      | [] => ⟨.error (.valueError "No audio generated."), p, lookups, 1, [], 0, events⟩
      | a :: _ => finishStage env p lookups 1 events a 24000

/-- The `loaded_obj["type"] == "vibevoice"` branch (tasks.py:83-206): the
speaker basename validation (tasks.py:87-89), then voice resolution for the
Realtime (0.5B) streaming model (tasks.py:94-138) or the 1.5B standard model
(tasks.py:140-193), then the synthesis call. -/
def vibeStage (env : TaskEnv) (model_name : String) (speaker : Option String)
    (p : List String) (events : List CacheEvent) : BodyOut :=
  if speakerTruthy speaker &&
      (afterLastSep (speakerRepr speaker) != speakerRepr speaker) then
    ⟨.error (.valueError ("Invalid speaker name: " ++ speakerRepr speaker)),
      p, [], 0, [], 0, events⟩
  else if pyContains model_name "Realtime" || pyContains model_name "0.5B" then
    if speakerTruthy speaker then
      let s := speakerRepr speaker
      let voice_file := "VibeVoice1.5/demo/voices/streaming_model/" ++ s ++ ".pt"
      if env.voiceFileExists voice_file then afterGen env p [voice_file] events
      else
        ⟨.error (.valueError ("Voice file not found: " ++ voice_file)),
          p, [voice_file], 0, [], 0, events⟩
    else
      ⟨.error (.valueError "Speaker/voice must be specified for VibeVoice Realtime model"),
        p, [], 0, [], 0, events⟩
  else
    if speakerTruthy speaker then
      let s := speakerRepr speaker
      let voice_file := "VibeVoice1.5/demo/voices/" ++ s ++ ".wav"
      if env.voiceFileExists voice_file then afterGen env p [voice_file] events
      else
        match env.voiceDirListing.find?
            (fun f => pyStartsWith f s && pyEndsWith f ".wav") with
        | some _ => afterGen env p [voice_file] events
        | none =>
          ⟨.error (.valueError ("Voice file for speaker " ++ s ++ " not found.")),
            p, [voice_file], 0, [], 0, events⟩
    else afterGen env p [] events

/-- The `try:` body of `generate_audio_task` (tasks.py:48-274): progress
update, model load, the pre-synthesis revocation-metadata checkpoint
(tasks.py:75-78), then the VibeVoice or pipeline synthesis path. -/
def taskBody (env : TaskEnv) (text model_name : String)
    (speaker : Option String) (cfg_scale : ℚ) (inference_steps : Nat)
    (user_id : Nat) : BodyOut :=
  let p1 := ["Loading model..."]
  let lo := load_model_pipeline env.load env.cache model_name
  match lo.result with
  | .error e => ⟨.error e, p1, [], 0, [], 0, lo.events⟩
  | .ok loaded =>
    let p2 := p1 ++ ["Configuring voice: " ++ speakerRepr speaker ++ "..."]
    if env.revokedMetaPresent then
      ⟨.ok cancelledResult, p2, [], 0, [], 0, lo.events⟩
    else
      let p3 := p2 ++ ["Synthesizing audio..."]
      match loaded.kind with
      | .vibevoice => vibeStage env model_name speaker p3 lo.events
      | .pipeline =>
        match env.pipe with
        | .error e => ⟨.error e, p3, [], 1, [], 0, lo.events⟩
        | .ok (audio_data, sampling_rate) =>
          finishStage env p3 [] 1 lo.events audio_data sampling_rate

/-- The exception handlers at the job boundary (tasks.py:276-281):
`SoftTimeLimitExceeded` has its own handler returning the `'timeout'`
dictionary; every other exception is converted to the `'error'` dictionary
with the redacted message `f"Generation failed: {str(e)}"` (the traceback is
only printed to the worker log, never returned). -/
def runBoundary : Except PyExn TaskResult → TaskResult
  | .ok r => r
  | .error .softTimeLimit => ⟨"timeout", "Task exceeded time limit", none, none⟩
  | .error (.valueError m) => ⟨"error", "Generation failed: " ++ m, none, none⟩
  | .error (.pyError m) => ⟨"error", "Generation failed: " ++ m, none, none⟩

/-- Embedding of the whole Celery task `generate_audio_task`
(tasks.py:14-281): the `try:` body plus its boundary handlers.  The task
always returns a dictionary; nothing unwinds past it. -/
def generate_audio_task (env : TaskEnv) (text model_name : String)
    (speaker : Option String) (cfg_scale : ℚ) (inference_steps : Nat)
    (user_id : Nat) : TaskResult × BodyOut :=
  let b := taskBody env text model_name speaker cfg_scale inference_steps user_id
  (runBoundary b.result, b)

/-! ## Cancellation controller and status endpoint (`Backend/main.py`) -/

/-- One record of the Celery result backend (what `AsyncResult(id)` reads). -/
structure CeleryMeta where
  /-- the task state tag -/
  state : String
  /-- `task_result.info` rendered as the endpoint uses it (`.get('status','')`
  for `PROGRESS`, `str(...)` otherwise) -/
  info : String
  /-- for `SUCCESS` results: the `'file_path'` entry of the result dictionary,
  when present -/
  resultFilePath : Option String
  deriving DecidableEq, Repr

/-- `AsyncResult(task_id).state`: Celery reports `'PENDING'` when the result
backend holds no record for the id, so an unknown id is indistinguishable
from a task that has not started yet. -/
def asyncResultState (store : String → Option CeleryMeta) (task_id : String) :
    String :=
  match store task_id with
  | none => "PENDING"
  | some m => m.state

/-- `str(task_result.info)` / `task_result.info.get('status', '')`. -/
def metaInfo (store : String → Option CeleryMeta) (task_id : String) : String :=
  match store task_id with
  | none => ""
  | some m => m.info

/-- Commands `cancel_task` issues against the shared infrastructure. -/
inductive CancelEffect where
  /-- `backend.client.setex(key, ttlSeconds, value)` (main.py:745) -/
  | setMarker (key : String) (ttlSeconds : Nat) (value : String) : CancelEffect
  /-- `celery_app.control.revoke(task_id, terminate=..., signal=...)`
  (main.py:750) -/
  | revokeTask (task_id : String) (terminate : Bool) (sig : String) : CancelEffect
  deriving DecidableEq, Repr

/-- The JSON body returned by the cancel endpoint. -/
structure CancelResponse where
  task_id : String
  status : String
  message : String
  deriving DecidableEq, Repr

/-- Embedding of `cancel_task` (main.py:732-761): for a task not in a
terminal state, write the cooperative cancellation marker
`task_cancelled:<id>` with a 3600-second TTL and revoke the task with
`terminate=True, signal='SIGTERM'`; for a terminal task, do nothing and
report its current state. -/
def cancel_task (store : String → Option CeleryMeta) (task_id : String) :
    CancelResponse × List CancelEffect :=
  let st := asyncResultState store task_id
  if st != "SUCCESS" && st != "FAILURE" && st != "REVOKED" then
    (⟨task_id, "cancelled", "Task cancellation requested"⟩,
      [.setMarker ("task_cancelled:" ++ task_id) 3600 "1",
       .revokeTask task_id true "SIGTERM"])
  else
    (⟨task_id, st, "Task is in " ++ st ++ " state and cannot be cancelled"⟩, [])

/-- The JSON body returned by the status endpoint: the `'status'` message
field (absent for `SUCCESS`) and the signed `'file_path'` of the result
dictionary (only for `SUCCESS`). -/
structure StatusResponse where
  task_id : String
  state : String
  statusMsg : Option String
  resultFilePath : Option String
  deriving DecidableEq, Repr

/-- Embedding of `get_task_status` (main.py:681-730).  `PENDING` answers
`'Task is waiting to start...'`; `SUCCESS` signs the result's `file_path`
with `sign_path`; `REVOKED` answers `'Task was cancelled'`; other states
echo `task_result.info`. -/
def get_task_status (mac : String → String) (now : Int)
    (store : String → Option CeleryMeta) (task_id : String) : StatusResponse :=
  let st := asyncResultState store task_id
  if st = "PENDING" then
    ⟨task_id, st, some "Task is waiting to start...", none⟩
  else if st = "PROGRESS" then
    ⟨task_id, st, some (metaInfo store task_id), none⟩
  else if st = "SUCCESS" then
    ⟨task_id, st, none,
      ((store task_id).bind (·.resultFilePath)).map (sign_path mac now)⟩
  else if st = "FAILURE" then
    ⟨task_id, st, some (metaInfo store task_id), none⟩
  else if st = "REVOKED" then
    ⟨task_id, st, some "Task was cancelled", none⟩
  else
    ⟨task_id, st, some (metaInfo store task_id), none⟩

/-! ## Concrete fixtures for closed evaluations -/

/-- A stand-in MAC used when evaluating the gateway on closed inputs. -/
def macFix : String → String := fun s => "m" ++ s

/-- Containment check that never rejects (file resolves under the root). -/
def noEscape : String → Bool := fun _ => false

/-- File-existence probe that always succeeds. -/
def allExist : String → Bool := fun _ => true

/-- Load environment where VibeVoice support is unavailable and the generic
pipeline loader succeeds. -/
def loadEnvPipe : LoadEnv :=
  ⟨false, false, fun _ => .error "nope", fun _ => .ok 7, fun _ => .ok 8⟩

/-- Load environment where the custom VibeVoice loader succeeds. -/
def loadEnvVibe : LoadEnv :=
  ⟨true, false, fun _ => .ok 3, fun _ => .error "p", fun _ => .error "q"⟩

/-- A run where the generic pipeline path completes successfully. -/
def envPipeComplete : TaskEnv :=
  ⟨loadEnvPipe, [], false, fun _ => true, [], .ok [[1/2]], false, false,
    .ok ([1/2], 24000), "u"⟩

/-- A run where the `task_cancelled:<id>` marker is set from the very start
(before the synthesis call begins), while the result backend holds no
`REVOKED` metadata. -/
def envVibeMarker : TaskEnv :=
  ⟨loadEnvVibe, [], false, fun _ => true, [], .ok [[1/2]], true, false,
    .error (.pyError "unused"), "u"⟩

/-- A run where the synthesis call is interrupted by the platform's
`SoftTimeLimitExceeded` signal. -/
def envVibeTimeout : TaskEnv :=
  ⟨loadEnvVibe, [], false, fun _ => true, [], .error .softTimeLimit, false,
    false, .error (.pyError "unused"), "u"⟩

/-- A result backend with no record for any id. -/
def storeEmpty : String → Option CeleryMeta := fun _ => none

/-! ## Helper lemmas -/

theorem static_append_ne (f : String) : "/static/" ++ f ≠ "" := by
  intro h
  have hlen := congrArg String.length h
  rw [String.length_append] at hlen
  have h8 : ("/static/" : String).length = 8 := rfl
  have h0 : ("" : String).length = 0 := rfl
  omega

theorem pyStartsWith_append (a b : String) : pyStartsWith (a ++ b) a = true := by
  simp only [pyStartsWith, String.data_append, List.isPrefixOf_iff_prefix]
  exact List.prefix_append _ _

/-! ## Claim C1 -/

/-- **C1** (confirmed): round trip of the artifact gateway.  For every
filename that is a single path segment (`hseg`: splitting the signed path on
`/` recovers it), signing `/static/<filename>` produces the URL carrying
`expires = now + 3600` and `signature = MAC(secret, "<filename>:<expires>")`,
and an immediate verification call (`nowVerify ≤ expires`) with that same
triple passes the missing-parameter, expiry and signature checks, reaching
file resolution and serving the file whenever it resolves under the artifact
root and exists. -/
theorem signed_link_round_trip (mac : String → String)
    (hmac : ∀ s, mac s ≠ "") (escapes fileExists : String → Bool)
    (filename : String)
    (hseg : afterLastSep ("/static/" ++ filename) = filename)
    (nowSign nowVerify : Int) (hnow : 0 ≤ nowSign)
    (himmediate : nowVerify ≤ nowSign + 3600) :
    sign_path mac nowSign ("/static/" ++ filename) =
      "/static/" ++ filename ++ "?expires=" ++ toString (nowSign + 3600) ++
        "&signature=" ++ create_access_signature mac filename (nowSign + 3600) ∧
    get_audio_file mac nowVerify escapes fileExists filename (nowSign + 3600)
        (create_access_signature mac filename (nowSign + 3600)) ≠ .missingParams ∧
    get_audio_file mac nowVerify escapes fileExists filename (nowSign + 3600)
        (create_access_signature mac filename (nowSign + 3600)) ≠ .expired ∧
    get_audio_file mac nowVerify escapes fileExists filename (nowSign + 3600)
        (create_access_signature mac filename (nowSign + 3600)) ≠ .invalidSignature ∧
    (escapes filename = false → fileExists filename = true →
      get_audio_file mac nowVerify escapes fileExists filename (nowSign + 3600)
        (create_access_signature mac filename (nowSign + 3600)) = .served filename) := by
  have hne := static_append_ne filename
  have hsw := pyStartsWith_append "/static/" filename
  have c1 : ¬ (nowSign + 3600 = 0 ∨
      create_access_signature mac filename (nowSign + 3600) = "") := by
    rintro (h | h)
    · omega
    · exact hmac _ h
  have c2 : ¬ nowVerify > nowSign + 3600 := by omega
  have c3 : ¬ ¬ (create_access_signature mac filename (nowSign + 3600) =
      create_access_signature mac filename (nowSign + 3600)) := by simp
  have heval : get_audio_file mac nowVerify escapes fileExists filename
      (nowSign + 3600) (create_access_signature mac filename (nowSign + 3600)) =
      if escapes filename then .invalidPath
      else if fileExists filename then .served filename
      else .notFound := by
    simp only [get_audio_file, if_neg c1, if_neg c2, if_neg c3]
    simp
  refine ⟨?_, ?_, ?_, ?_, ?_⟩
  · simp [sign_path, hne, hsw, hseg]
  · rw [heval]
    cases hE : escapes filename <;> cases hF : fileExists filename <;> simp
  · rw [heval]
    cases hE : escapes filename <;> cases hF : fileExists filename <;> simp
  · rw [heval]
    cases hE : escapes filename <;> cases hF : fileExists filename <;> simp
  · intro hE hF
    rw [heval, hE, hF]
    simp

/-- Closed witness for `signed_link_round_trip`. -/
theorem signed_link_round_trip_witness :
    (∀ s, macFix s ≠ "") ∧
    afterLastSep ("/static/" ++ "audio_test.wav") = "audio_test.wav" ∧
    (0 : Int) ≤ 0 ∧ (5 : Int) ≤ 0 + 3600 ∧
    get_audio_file macFix 5 noEscape allExist "audio_test.wav" (0 + 3600)
      (create_access_signature macFix "audio_test.wav" (0 + 3600)) =
      .served "audio_test.wav" :=
  ⟨fun s => by simp [macFix, String.ext_iff, String.data_append],
   by decide, by decide, by decide,
   (signed_link_round_trip macFix
      (fun s => by simp [macFix, String.ext_iff, String.data_append])
      noEscape allExist "audio_test.wav" (by decide) 0 5 (by decide)
      (by decide)).2.2.2.2 rfl rfl⟩

/-! ## Claim C2 -/

/-- **C2** is `corrected`: as stated it quantifies over *every* expiry and
supplied signature, but an expiry of `0` (a falsy `int`) or an empty
signature is swallowed by the missing-parameter guard first, so a past-expiry
request with the exactly-correct MAC for `"<filename>:0"` fails with
"Missing signature or expiry", not "Link expired"; likewise an expired
request with a wrong signature fails with "Link expired", not
"Invalid signature". -/
theorem gateway_rejection_as_stated_cex :
    ((1 : Int) > 0 ∧
      get_audio_file macFix 1 noEscape allExist "a.wav" 0
        (create_access_signature macFix "a.wav" 0) = .missingParams ∧
      GatewayResult.missingParams ≠ GatewayResult.expired) ∧
    ((2 : Int) > 1 ∧
      "forged" ≠ create_access_signature macFix "a.wav" 1 ∧
      get_audio_file macFix 2 noEscape allExist "a.wav" 1 "forged" = .expired ∧
      GatewayResult.expired ≠ GatewayResult.invalidSignature) := by
  exact ⟨⟨by decide, by decide, by decide⟩,
    ⟨by decide, by decide, by decide, by decide⟩⟩

/-- **C2** (amended): provided the request passes the missing-parameter guard
(`expires ≠ 0`, `signature ≠ ""`), a past-expiry request fails with
`LinkExpired` even when the supplied signature is exactly the expected MAC,
and a non-expired request whose signature differs from
`MAC(secret, "<filename>:<expiry>")` fails with `LinkInvalidSignature`;
moreover (unconditionally) no expired or signature-mismatched request is
ever served bytes. -/
theorem gateway_rejection_sound (mac : String → String) (now : Int)
    (escapes fileExists : String → Bool) (filename : String) (expires : Int)
    (signature : String) (hexp : expires ≠ 0) (hsig : signature ≠ "") :
    (now > expires →
      get_audio_file mac now escapes fileExists filename expires signature =
        .expired) ∧
    (¬ now > expires → signature ≠ create_access_signature mac filename expires →
      get_audio_file mac now escapes fileExists filename expires signature =
        .invalidSignature) ∧
    (∀ e : Int, ∀ sg : String,
      now > e ∨ sg ≠ create_access_signature mac filename e →
      ∀ f, get_audio_file mac now escapes fileExists filename e sg ≠ .served f) := by
  refine ⟨?_, ?_, ?_⟩
  · intro hgt
    simp only [get_audio_file]
    rw [if_neg (by tauto), if_pos hgt]
  · intro hle hneq
    simp only [get_audio_file]
    rw [if_neg (by tauto), if_neg hle, if_pos (by exact hneq)]
  · intro e sg h f
    simp only [get_audio_file]
    split
    · simp
    · split
      · simp
      · split
        · simp
        · rename_i h1 h2 h3
          rcases h with hgt | hneq
          · exact absurd hgt h2
          · exact absurd (not_not.mp h3) hneq

/-- Closed witness for `gateway_rejection_sound`. -/
theorem gateway_rejection_sound_witness :
    (1 : Int) ≠ 0 ∧ ("s" : String) ≠ "" ∧ (2 : Int) > 1 ∧
    get_audio_file macFix 2 noEscape allExist "a.wav" 1 "s" = .expired :=
  ⟨by decide, by decide, by decide,
   (gateway_rejection_sound macFix 2 noEscape allExist "a.wav" 1 "s"
      (by decide) (by decide)).1 (by decide)⟩

/-! ## Claim C10 -/

/-- **C10** (confirmed): a retrieval request whose `expires` parameter is `0`
or whose `signature` parameter is the empty string is rejected with the 403
"Missing signature or expiry" error before the expiry and signature checks,
even when the supplied signature is exactly the MAC for `"<filename>:0"` —
the guard treats the falsy `0` as absent. -/
theorem missing_param_guard (mac : String → String) (now : Int)
    (escapes fileExists : String → Bool) (filename : String) (expires : Int)
    (signature : String) (h : expires = 0 ∨ signature = "") :
    get_audio_file mac now escapes fileExists filename expires signature =
      .missingParams ∧
    get_audio_file mac now escapes fileExists filename 0
      (create_access_signature mac filename 0) = .missingParams := by
  constructor
  · simp only [get_audio_file]
    rw [if_pos h]
  · simp [get_audio_file]

/-- Closed witness for `missing_param_guard`. -/
theorem missing_param_guard_witness :
    ((0 : Int) = 0 ∨ ("x" : String) = "") ∧
    get_audio_file macFix 1 noEscape allExist "a.wav" 0 "x" = .missingParams :=
  ⟨Or.inl rfl,
   (missing_param_guard macFix 1 noEscape allExist "a.wav" 0 "x"
      (Or.inl rfl)).1⟩

/-! ## Claim C4 -/

/-- On a cache miss, `load_model_pipeline` either caches exactly the one
freshly loaded model after emitting the eviction events followed by the load
event, or fails leaving the cache empty after the eviction events alone. -/
theorem load_model_pipeline_miss (env : LoadEnv)
    (cache : List (String × Handle)) (model_name : String)
    (h : cacheLookup cache model_name = none) :
    (∃ hdl, (load_model_pipeline env cache model_name).result = .ok hdl ∧
      (load_model_pipeline env cache model_name).cache = [(model_name, hdl)] ∧
      (load_model_pipeline env cache model_name).events =
        (if cache.isEmpty then ([] : List CacheEvent)
         else [CacheEvent.evicted] ++
           (if env.acceleratorAvailable then [CacheEvent.acceleratorCacheFlushed]
            else [])) ++ [CacheEvent.loaded model_name]) ∨
    (∃ e, (load_model_pipeline env cache model_name).result = .error e ∧
      (load_model_pipeline env cache model_name).cache = [] ∧
      (load_model_pipeline env cache model_name).events =
        (if cache.isEmpty then ([] : List CacheEvent)
         else [CacheEvent.evicted] ++
           (if env.acceleratorAvailable then [CacheEvent.acceleratorCacheFlushed]
            else []))) := by
  simp only [load_model_pipeline, h]
  by_cases hv : (pyContains model_name "VibeVoice" && env.vibevoiceAvailable) = true
  · simp only [hv, if_true]
    cases hvl : env.vibeLoad model_name with
    | ok n => left; exact ⟨⟨n, .vibevoice⟩, by simp [hvl], by simp [hvl], by simp [hvl]⟩
    | error e =>
      right
      exact ⟨.pyError ("Failed to load VibeVoice model: " ++ e),
        by simp [hvl], by simp [hvl], by simp [hvl]⟩
  · simp only [Bool.not_eq_true] at hv
    simp only [hv, Bool.false_eq_true, if_false]
    cases hpl : env.pipeLoad model_name with
    | ok n => left; exact ⟨⟨n, .pipeline⟩, by simp [hpl], by simp [hpl], by simp [hpl]⟩
    | error e =>
      cases hpc : env.pipeLoadCpu model_name with
      | ok n =>
        left
        exact ⟨⟨n, .pipeline⟩, by simp [hpl, hpc], by simp [hpl, hpc],
          by simp [hpl, hpc]⟩
      | error e2 =>
        right
        exact ⟨.pyError e2, by simp [hpl, hpc], by simp [hpl, hpc],
          by simp [hpl, hpc]⟩

/-- **C4** (confirmed): single-residency of the model cache.  Starting from
any cache holding at most one entry, after a `load_model_pipeline` call at
most one entry is resident; a hit returns the stored handle with no events
and no cache change (no eviction, no reload); a miss with a resident entry
emits the eviction (and, on accelerator hosts, the cache flush) and — when
the load succeeds — emits them strictly before the load event, ending with
exactly the new entry cached. -/
theorem model_cache_single_residency (env : LoadEnv)
    (cache : List (String × Handle)) (model_name : String)
    (hinv : cache.length ≤ 1) :
    (load_model_pipeline env cache model_name).cache.length ≤ 1 ∧
    (∀ hdl, cacheLookup cache model_name = some hdl →
      (load_model_pipeline env cache model_name).result = .ok hdl ∧
      (load_model_pipeline env cache model_name).cache = cache ∧
      (load_model_pipeline env cache model_name).events = []) ∧
    (cacheLookup cache model_name = none → cache ≠ [] →
      CacheEvent.evicted ∈ (load_model_pipeline env cache model_name).events ∧
      (env.acceleratorAvailable = true →
        CacheEvent.acceleratorCacheFlushed ∈
          (load_model_pipeline env cache model_name).events) ∧
      ∀ hdl, (load_model_pipeline env cache model_name).result = .ok hdl →
        ∃ pre, (load_model_pipeline env cache model_name).events =
            pre ++ [CacheEvent.loaded model_name] ∧
          CacheEvent.evicted ∈ pre ∧
          (load_model_pipeline env cache model_name).cache = [(model_name, hdl)]) := by
  cases hl : cacheLookup cache model_name with
  | some h0 =>
    refine ⟨?_, ?_, ?_⟩
    · simp only [load_model_pipeline, hl]
      exact hinv
    · intro hdl hh
      cases hh
      simp [load_model_pipeline, hl]
    · intro hnone
      cases hnone
  | none =>
    have hshape := load_model_pipeline_miss env cache model_name hl
    have hemp : cache ≠ [] → cache.isEmpty = false := by
      intro hc
      cases cache with
      | nil => exact absurd rfl hc
      | cons a as => rfl
    refine ⟨?_, ?_, ?_⟩
    · rcases hshape with ⟨hdl, _, hc, _⟩ | ⟨e, _, hc, _⟩ <;> simp [hc]
    · intro hdl hh
      cases hh
    · intro _ hcne
      have hie := hemp hcne
      rcases hshape with ⟨hdl, hr, hc, hev⟩ | ⟨e, hr, hc, hev⟩
      · refine ⟨?_, ?_, ?_⟩
        · rw [hev, hie]
          simp
        · intro ha
          rw [hev, hie, ha]
          simp
        · intro hdl' hr'
          rw [hr] at hr'
          cases hr'
          refine ⟨(if cache.isEmpty then ([] : List CacheEvent)
            else [CacheEvent.evicted] ++
              (if env.acceleratorAvailable then [CacheEvent.acceleratorCacheFlushed]
               else [])), hev, ?_, hc⟩
          rw [hie]
          simp
      · refine ⟨?_, ?_, ?_⟩
        · rw [hev, hie]
          simp
        · intro ha
          rw [hev, hie, ha]
          simp
        · intro hdl' hr'
          rw [hr] at hr'
          cases hr'

/-- Closed witness for `model_cache_single_residency`: loading model `"new"`
while `"old"` is resident evicts `"old"` first. -/
theorem model_cache_single_residency_witness :
    ([(("old" : String), (⟨5, ModelKind.pipeline⟩ : Handle))].length ≤ 1) ∧
    cacheLookup [("old", ⟨5, ModelKind.pipeline⟩)] "new" = none ∧
    CacheEvent.evicted ∈
      (load_model_pipeline loadEnvPipe [("old", ⟨5, ModelKind.pipeline⟩)]
        "new").events :=
  ⟨by decide, by decide,
   ((model_cache_single_residency loadEnvPipe [("old", ⟨5, ModelKind.pipeline⟩)]
      "new" (by decide)).2.2 (by decide) (by decide)).1⟩

/-! ## Claim C6 -/

theorem foldlMaxAbs_nonneg (xs : List ℚ) (a : ℚ) (ha : 0 ≤ a) :
    0 ≤ xs.foldl (fun m y => max m |y|) a := by
  induction xs generalizing a with
  | nil => exact ha
  | cons y ys ih => exact ih _ (le_trans ha (le_max_left _ _))

theorem foldlMaxAbs_eq_zero_iff (xs : List ℚ) (a : ℚ) (ha : 0 ≤ a) :
    xs.foldl (fun m y => max m |y|) a = 0 ↔ (a = 0 ∧ ∀ y ∈ xs, y = 0) := by
  induction xs generalizing a with
  | nil => simp
  | cons y ys ih =>
    rw [List.foldl_cons, ih _ (le_trans ha (le_max_left _ _))]
    constructor
    · rintro ⟨hmax, hall⟩
      have hy : |y| = 0 :=
        le_antisymm (hmax ▸ le_max_right a |y|) (abs_nonneg y)
      have ha0 : a = 0 := le_antisymm (hmax ▸ le_max_left a |y|) ha
      refine ⟨ha0, ?_⟩
      intro z hz
      rcases List.mem_cons.mp hz with rfl | hz'
      · exact abs_eq_zero.mp hy
      · exact hall z hz'
    · rintro ⟨ha0, hall⟩
      have hy : y = 0 := hall y (List.mem_cons_self y ys)
      refine ⟨?_, fun z hz => hall z (List.mem_cons_of_mem _ hz)⟩
      rw [ha0, hy]
      simp

/-- **C6** is `corrected`: the claim quantifies over *every* sample array,
but on the empty array `np.max(np.abs(audio_data))` itself raises
`ValueError` before any division or output, so no "all-zero 16-bit output"
is produced there. -/
theorem normalize_empty_cex :
    (∀ x ∈ ([] : List ℚ), x = 0) ∧ normalizePCM ([] : List ℚ) = none ∧
    ∀ o : List Int, normalizePCM ([] : List ℚ) ≠ some o := by
  refine ⟨by simp, rfl, ?_⟩
  intro o h
  simp [normalizePCM, maxAbsVal] at h

/-- **C6** (amended): for every *nonempty* sample array, if all samples are
zero the normalization branch is skipped (the peak is exactly `0`, so no
division occurs) and the 16-bit output is all zeros; otherwise the peak is
strictly positive — so the division-by-zero branch is unreachable — and each
sample is divided by the peak and scaled by 32767 into 16-bit PCM. -/
theorem normalize_silence_safe (l : List ℚ) (hne : l ≠ []) :
    ((∀ x ∈ l, x = 0) → maxAbsVal l = some 0 ∧
      normalizePCM l = some (l.map fun _ => (0 : Int))) ∧
    ((∃ x ∈ l, x ≠ 0) → ∃ p, maxAbsVal l = some p ∧ 0 < p ∧
      normalizePCM l = some (l.map fun x => toInt16 (x / p * 32767))) := by
  cases l with
  | nil => exact absurd rfl hne
  | cons a as =>
    have hnn : 0 ≤ as.foldl (fun m y => max m |y|) |a| :=
      foldlMaxAbs_nonneg as _ (abs_nonneg a)
    constructor
    · intro hall
      have hz : as.foldl (fun m y => max m |y|) |a| = 0 := by
        rw [foldlMaxAbs_eq_zero_iff as _ (abs_nonneg a)]
        exact ⟨abs_eq_zero.mpr (hall a (List.mem_cons_self a as)),
          fun y hy => hall y (List.mem_cons_of_mem _ hy)⟩
      refine ⟨by simp [maxAbsVal, hz], ?_⟩
      simp only [normalizePCM, maxAbsVal, hz]
      rw [if_neg (lt_irrefl 0)]
      congr 1
      apply List.map_congr_left
      intro x hx
      rw [hall x hx]
      simp [toInt16, truncTowardZero, int16cast]
    · rintro ⟨x, hx, hxne⟩
      have hpne : as.foldl (fun m y => max m |y|) |a| ≠ 0 := by
        intro h0
        rw [foldlMaxAbs_eq_zero_iff as _ (abs_nonneg a)] at h0
        rcases List.mem_cons.mp hx with rfl | hmem
        · exact hxne (abs_eq_zero.mp h0.1)
        · exact hxne (h0.2 x hmem)
      have hpos : 0 < as.foldl (fun m y => max m |y|) |a| :=
        lt_of_le_of_ne hnn (Ne.symm hpne)
      refine ⟨as.foldl (fun m y => max m |y|) |a|, rfl, hpos, ?_⟩
      simp only [normalizePCM, maxAbsVal]
      rw [if_pos hpos, List.map_map]
      simp [Function.comp]

/-- Closed witness for `normalize_silence_safe`. -/
theorem normalize_silence_safe_witness :
    ([(0 : ℚ), 0] ≠ []) ∧
    (maxAbsVal [(0 : ℚ), 0] = some 0 ∧
      normalizePCM [(0 : ℚ), 0] = some ([(0 : ℚ), 0].map fun _ => (0 : Int))) :=
  ⟨by simp, (normalize_silence_safe [0, 0] (by simp)).1 (by simp)⟩

/-! ## Shape of the task body's returned dictionaries -/

theorem finishStage_result (env : TaskEnv) (p lookups : List String)
    (synth : Nat) (events : List CacheEvent) (audio : List ℚ) (rate : Nat) :
    (finishStage env p lookups synth events audio rate).result =
      .ok cancelledResult ∨
    (∃ fp d, (finishStage env p lookups synth events audio rate).result =
      .ok ⟨"completed", "", fp, d⟩) ∨
    (∃ e, (finishStage env p lookups synth events audio rate).result =
      .error e) := by
  unfold finishStage
  split
  · exact Or.inl rfl
  · split
    · exact Or.inr (Or.inr ⟨_, rfl⟩)
    · split
      · exact Or.inr (Or.inr ⟨_, rfl⟩)
      · exact Or.inr (Or.inl ⟨_, _, rfl⟩)

theorem finishStage_ok_status (env : TaskEnv) (p lookups : List String)
    (synth : Nat) (events : List CacheEvent) (audio : List ℚ) (rate : Nat)
    (r : TaskResult)
    (h : (finishStage env p lookups synth events audio rate).result = .ok r) :
    r.status = "completed" ∨ r.status = "cancelled" := by
  rcases finishStage_result env p lookups synth events audio rate with
    h1 | ⟨fp, d, h1⟩ | ⟨e, h1⟩
  · have h2 := h1.symm.trans h
    injection h2 with h3
    rw [← h3]
    right; rfl
  · have h2 := h1.symm.trans h
    injection h2 with h3
    rw [← h3]
    left; rfl
  · have h2 := h1.symm.trans h
    exact Except.noConfusion h2

theorem afterGen_ok_status (env : TaskEnv) (p lookups : List String)
    (events : List CacheEvent) (r : TaskResult)
    (h : (afterGen env p lookups events).result = .ok r) :
    r.status = "completed" ∨ r.status = "cancelled" := by
  unfold afterGen at h
  split at h
  · simp at h
  · split at h
    · injection h with h3
      rw [← h3]
      right; rfl
    · split at h
      · simp at h
      · exact finishStage_ok_status _ _ _ _ _ _ _ _ h

theorem vibeStage_ok_status (env : TaskEnv) (model_name : String)
    (speaker : Option String) (p : List String) (events : List CacheEvent)
    (r : TaskResult) (h : (vibeStage env model_name speaker p events).result = .ok r) :
    r.status = "completed" ∨ r.status = "cancelled" := by
  unfold vibeStage at h
  by_cases h1 : (speakerTruthy speaker &&
      (afterLastSep (speakerRepr speaker) != speakerRepr speaker)) = true
  · rw [if_pos h1] at h
    simp at h
  · rw [if_neg h1] at h
    by_cases h2 : (pyContains model_name "Realtime" ||
        pyContains model_name "0.5B") = true
    · rw [if_pos h2] at h
      by_cases h3 : speakerTruthy speaker = true
      · rw [if_pos h3] at h
        simp only [] at h
        by_cases h4 : env.voiceFileExists
            ("VibeVoice1.5/demo/voices/streaming_model/" ++
              speakerRepr speaker ++ ".pt") = true
        · rw [if_pos h4] at h
          exact afterGen_ok_status _ _ _ _ _ h
        · rw [if_neg h4] at h
          simp at h
      · rw [if_neg h3] at h
        simp at h
    · rw [if_neg h2] at h
      by_cases h3 : speakerTruthy speaker = true
      · rw [if_pos h3] at h
        simp only [] at h
        by_cases h4 : env.voiceFileExists
            ("VibeVoice1.5/demo/voices/" ++ speakerRepr speaker ++ ".wav") = true
        · rw [if_pos h4] at h
          exact afterGen_ok_status _ _ _ _ _ h
        · rw [if_neg h4] at h
          cases hf : List.find?
              (fun f => pyStartsWith f (speakerRepr speaker) &&
                pyEndsWith f ".wav") env.voiceDirListing with
          | some v =>
            simp only [hf] at h
            exact afterGen_ok_status _ _ _ _ _ h
          | none =>
            simp only [hf] at h
            simp at h
      · rw [if_neg h3] at h
        exact afterGen_ok_status _ _ _ _ _ h

theorem taskBody_ok_status (env : TaskEnv) (text model_name : String)
    (speaker : Option String) (cfg_scale : ℚ) (inference_steps user_id : Nat)
    (r : TaskResult)
    (h : (taskBody env text model_name speaker cfg_scale inference_steps
      user_id).result = .ok r) :
    r.status = "completed" ∨ r.status = "cancelled" := by
  unfold taskBody at h
  cases hload : (load_model_pipeline env.load env.cache model_name).result with
  | error e =>
    simp only [hload] at h
    simp at h
  | ok loaded =>
    simp only [hload] at h
    by_cases hrev : env.revokedMetaPresent = true
    · rw [if_pos hrev] at h
      injection h with h3
      rw [← h3]
      right; rfl
    · rw [if_neg hrev] at h
      cases hkind : loaded.kind with
      | vibevoice =>
        simp only [hkind] at h
        exact vibeStage_ok_status _ _ _ _ _ _ h
      | pipeline =>
        simp only [hkind] at h
        cases hpipe : env.pipe with
        | error e =>
          simp only [hpipe] at h
          simp at h
        | ok pr =>
          obtain ⟨a, rate⟩ := pr
          simp only [hpipe] at h
          exact finishStage_ok_status _ _ _ _ _ _ _ _ h

/-! ## Claim C7 -/

/-- **C7** (confirmed): job-boundary exception translation.  The task is a
total function of its environment: every run yields a returned dictionary.
A body that returns normally only ever reports `completed` or `cancelled`;
a `SoftTimeLimitExceeded` escaping the body is caught by its own handler and
reported as `timeout` (not `error`); every other exception is caught and
reported as an `error` dictionary whose message is exactly
`"Generation failed: " ++ str(e)` — no traceback in the payload. -/
theorem task_boundary_translation (env : TaskEnv) (text model_name : String)
    (speaker : Option String) (cfg_scale : ℚ) (inference_steps user_id : Nat) :
    (∀ r, (taskBody env text model_name speaker cfg_scale inference_steps
        user_id).result = .ok r →
      generate_audio_task env text model_name speaker cfg_scale inference_steps
          user_id =
        (r, taskBody env text model_name speaker cfg_scale inference_steps
          user_id) ∧
      (r.status = "completed" ∨ r.status = "cancelled")) ∧
    ((taskBody env text model_name speaker cfg_scale inference_steps
        user_id).result = .error .softTimeLimit →
      (generate_audio_task env text model_name speaker cfg_scale inference_steps
        user_id).1 = ⟨"timeout", "Task exceeded time limit", none, none⟩) ∧
    (∀ m, ((taskBody env text model_name speaker cfg_scale inference_steps
          user_id).result = .error (.valueError m) ∨
        (taskBody env text model_name speaker cfg_scale inference_steps
          user_id).result = .error (.pyError m)) →
      (generate_audio_task env text model_name speaker cfg_scale inference_steps
        user_id).1 = ⟨"error", "Generation failed: " ++ m, none, none⟩) := by
  refine ⟨?_, ?_, ?_⟩
  · intro r h
    exact ⟨by simp [generate_audio_task, runBoundary, h],
      taskBody_ok_status env text model_name speaker cfg_scale inference_steps
        user_id r h⟩
  · intro h
    simp [generate_audio_task, runBoundary, h]
  · intro m hm
    rcases hm with h | h <;> simp [generate_audio_task, runBoundary, h]

/-- Closed witness for `task_boundary_translation`: a synthesis call
interrupted by the soft time limit yields the `timeout` dictionary. -/
theorem task_boundary_translation_witness :
    (taskBody envVibeTimeout "hello" "microsoft/VibeVoice-1.5B" none 1 5
      1).result = .error .softTimeLimit ∧
    (generate_audio_task envVibeTimeout "hello" "microsoft/VibeVoice-1.5B"
      none 1 5 1).1 = ⟨"timeout", "Task exceeded time limit", none, none⟩ :=
  ⟨by decide,
   (task_boundary_translation envVibeTimeout "hello" "microsoft/VibeVoice-1.5B"
      none 1 5 1).2.1 (by decide)⟩

/-! ## Claim C3 -/

/-- **C3** is `corrected`: the basename validation lives inside the
`loaded_obj["type"] == "vibevoice"` branch only.  A job routed through the
generic pipeline fallback never validates or uses the speaker: with a
traversal-shaped speaker it still completes, writes an audio file and an
`AudioHistory` row. -/
theorem invalid_speaker_pipeline_cex :
    afterLastSep "../../etc/passwd" ≠ "../../etc/passwd" ∧
    (generate_audio_task envPipeComplete "hello" "bark"
      (some "../../etc/passwd") 1 5 1).1.status = "completed" ∧
    (generate_audio_task envPipeComplete "hello" "bark"
      (some "../../etc/passwd") 1 5 1).2.voiceLookups = [] ∧
    (generate_audio_task envPipeComplete "hello" "bark"
      (some "../../etc/passwd") 1 5 1).2.filesWritten = ["audio_u.wav"] ∧
    (generate_audio_task envPipeComplete "hello" "bark"
      (some "../../etc/passwd") 1 5 1).2.historyWrites = 1 :=
  ⟨by decide, by decide, by decide, by decide, by decide⟩

/-- **C3** (amended): for every job whose loaded model object carries the
VibeVoice type tag and that is not already flagged revoked at the
pre-synthesis checkpoint, a non-empty speaker that is not exactly its own
base name is rejected (`ValueError("Invalid speaker name: ...")`) before any
voice-file lookup; the job ends in the `error` result with the redacted
message, with no synthesis call, no audio file and no `AudioHistory` row. -/
theorem invalid_speaker_rejected (env : TaskEnv) (text model_name : String)
    (s : String) (cfg_scale : ℚ) (inference_steps user_id : Nat) (hdl : Handle)
    (hload : (load_model_pipeline env.load env.cache model_name).result =
      .ok hdl)
    (hkind : hdl.kind = .vibevoice)
    (hnorev : env.revokedMetaPresent = false)
    (hs : s ≠ "") (hbase : afterLastSep s ≠ s) :
    taskBody env text model_name (some s) cfg_scale inference_steps user_id =
      ⟨.error (.valueError ("Invalid speaker name: " ++ s)),
        ["Loading model...", "Configuring voice: " ++ s ++ "...",
          "Synthesizing audio..."],
        [], 0, [], 0,
        (load_model_pipeline env.load env.cache model_name).events⟩ ∧
    (generate_audio_task env text model_name (some s) cfg_scale inference_steps
      user_id).1 =
      ⟨"error", "Generation failed: " ++ ("Invalid speaker name: " ++ s),
        none, none⟩ := by
  have hbody : taskBody env text model_name (some s) cfg_scale inference_steps
      user_id =
      ⟨.error (.valueError ("Invalid speaker name: " ++ s)),
        ["Loading model...", "Configuring voice: " ++ s ++ "...",
          "Synthesizing audio..."],
        [], 0, [], 0,
        (load_model_pipeline env.load env.cache model_name).events⟩ := by
    simp only [taskBody, hload, hnorev, hkind]
    simp [vibeStage, speakerRepr, speakerTruthy, hs, hbase]
  exact ⟨hbody, by simp [generate_audio_task, hbody, runBoundary]⟩

/-- Closed witness for `invalid_speaker_rejected`. -/
theorem invalid_speaker_rejected_witness :
    (load_model_pipeline envVibeTimeout.load envVibeTimeout.cache
      "microsoft/VibeVoice-1.5B").result =
      .ok ⟨3, ModelKind.vibevoice⟩ ∧
    envVibeTimeout.revokedMetaPresent = false ∧
    ("a/b" : String) ≠ "" ∧ afterLastSep "a/b" ≠ "a/b" ∧
    (generate_audio_task envVibeTimeout "hello" "microsoft/VibeVoice-1.5B"
      (some "a/b") 1 5 1).1 =
      ⟨"error", "Generation failed: " ++ ("Invalid speaker name: " ++ "a/b"),
        none, none⟩ :=
  ⟨by decide, rfl, by decide, by decide,
   (invalid_speaker_rejected envVibeTimeout "hello" "microsoft/VibeVoice-1.5B"
      "a/b" 1 5 1 ⟨3, ModelKind.vibevoice⟩ (by decide) rfl rfl (by decide)
      (by decide)).2⟩

/-! ## Claim C5 -/

/-- **C5** is `corrected`: the checkpoint *before* the synthesis call reads
the result-backend metadata for a `REVOKED` tag (tasks.py:75-78), not the
`task_cancelled:<id>` marker.  With the marker set from the very start (and
no `REVOKED` metadata) on the 1.5B VibeVoice path, the synthesis call still
begins (`synthCalls = 1`); the marker is only honored at the post-synthesis
checkpoint. -/
theorem cancellation_checkpoint_cex :
    envVibeMarker.markerPresent = true ∧
    envVibeMarker.revokedMetaPresent = false ∧
    (generate_audio_task envVibeMarker "hello" "microsoft/VibeVoice-1.5B"
      none 1 5 1).2.synthCalls = 1 ∧
    (generate_audio_task envVibeMarker "hello" "microsoft/VibeVoice-1.5B"
      none 1 5 1).1 = cancelledDuringResult :=
  ⟨rfl, rfl, by decide, by decide⟩

/-- **C5** (amended): the worker checks cancellation at two checkpoints.
Before the synthesis call it checks the result-backend `REVOKED` metadata:
when present the job immediately reports `cancelled` with no synthesis call,
no audio file and no `AudioHistory` row.  Immediately after the synthesis
call returns (VibeVoice paths) it checks the `task_cancelled:<id>` marker:
when present the generated output is discarded and the job reports
`cancelled` with no audio file and no `AudioHistory` row. -/
theorem cancellation_checkpoints (env : TaskEnv) (text model_name : String)
    (speaker : Option String) (cfg_scale : ℚ) (inference_steps user_id : Nat)
    (p lookups : List String) (events : List CacheEvent)
    (outs : List (List ℚ)) :
    (env.revokedMetaPresent = true →
      ∀ hdl, (load_model_pipeline env.load env.cache model_name).result =
        .ok hdl →
      generate_audio_task env text model_name speaker cfg_scale inference_steps
          user_id =
        (cancelledResult,
          ⟨.ok cancelledResult,
            ["Loading model...",
              "Configuring voice: " ++ speakerRepr speaker ++ "..."],
            [], 0, [], 0,
            (load_model_pipeline env.load env.cache model_name).events⟩)) ∧
    (env.generate = .ok outs → env.markerPresent = true →
      afterGen env p lookups events =
        ⟨.ok cancelledDuringResult, p, lookups, 1, [], 0, events⟩) := by
  constructor
  · intro hrev hdl hload
    have hbody : taskBody env text model_name speaker cfg_scale inference_steps
        user_id =
        ⟨.ok cancelledResult,
          ["Loading model...",
            "Configuring voice: " ++ speakerRepr speaker ++ "..."],
          [], 0, [], 0,
          (load_model_pipeline env.load env.cache model_name).events⟩ := by
      simp [taskBody, hload, hrev]
    simp [generate_audio_task, hbody, runBoundary]
  · intro hgen hmark
    simp [afterGen, hgen, hmark]

/-- Closed witness for `cancellation_checkpoints`. -/
theorem cancellation_checkpoints_witness :
    envVibeMarker.generate = .ok [[1/2]] ∧
    envVibeMarker.markerPresent = true ∧
    afterGen envVibeMarker [] [] [] =
      ⟨.ok cancelledDuringResult, [], [], 1, [], 0, []⟩ :=
  ⟨rfl, rfl,
   (cancellation_checkpoints envVibeMarker "h" "m" none 1 5 1 [] [] []
      [[1/2]]).2 rfl rfl⟩

/-! ## Claim C8 -/

/-- **C8** (confirmed): cancellation request semantics.  For a job not in a
terminal state (`SUCCESS`, `FAILURE`, `REVOKED`), the endpoint writes the
`task_cancelled:<id>` marker with a 3600-second (one hour) TTL and issues a
forceful `revoke(terminate=True, signal='SIGTERM')` for the same id; for a
terminal job it issues no command at all and reports the job's current
terminal state rather than an error. -/
theorem cancel_request_semantics (store : String → Option CeleryMeta)
    (task_id : String) :
    (asyncResultState store task_id ≠ "SUCCESS" →
     asyncResultState store task_id ≠ "FAILURE" →
     asyncResultState store task_id ≠ "REVOKED" →
      cancel_task store task_id =
        (⟨task_id, "cancelled", "Task cancellation requested"⟩,
         [.setMarker ("task_cancelled:" ++ task_id) 3600 "1",
          .revokeTask task_id true "SIGTERM"])) ∧
    (asyncResultState store task_id = "SUCCESS" ∨
     asyncResultState store task_id = "FAILURE" ∨
     asyncResultState store task_id = "REVOKED" →
      (cancel_task store task_id).2 = [] ∧
      (cancel_task store task_id).1 =
        ⟨task_id, asyncResultState store task_id,
          "Task is in " ++ asyncResultState store task_id ++
            " state and cannot be cancelled"⟩) := by
  constructor
  · intro h1 h2 h3
    have hc : (asyncResultState store task_id != "SUCCESS" &&
        asyncResultState store task_id != "FAILURE" &&
        asyncResultState store task_id != "REVOKED") = true := by
      simp [bne_iff_ne, h1, h2, h3]
    simp [cancel_task, hc]
  · intro h
    have hc : ¬ ((asyncResultState store task_id != "SUCCESS" &&
        asyncResultState store task_id != "FAILURE" &&
        asyncResultState store task_id != "REVOKED") = true) := by
      simp only [Bool.and_eq_true, bne_iff_ne]
      rcases h with h | h | h <;> intro hh <;> tauto
    simp [cancel_task, hc]

/-- Closed witness for `cancel_request_semantics`: an id with no backend
record reads as `PENDING` (non-terminal), so the marker is written and the
forceful revoke issued. -/
theorem cancel_request_semantics_witness :
    asyncResultState storeEmpty "job1" ≠ "SUCCESS" ∧
    asyncResultState storeEmpty "job1" ≠ "FAILURE" ∧
    asyncResultState storeEmpty "job1" ≠ "REVOKED" ∧
    cancel_task storeEmpty "job1" =
      (⟨"job1", "cancelled", "Task cancellation requested"⟩,
       [.setMarker ("task_cancelled:" ++ "job1") 3600 "1",
        .revokeTask "job1" true "SIGTERM"]) :=
  ⟨by decide, by decide, by decide,
   (cancel_request_semantics storeEmpty "job1").1 (by decide) (by decide)
     (by decide)⟩

/-! ## Claim C9 -/

/-- **C9** is `corrected`: for an id with no record in the result backend,
Celery's `AsyncResult` reports state `PENDING`, so the status endpoint
answers the `PENDING` shape (`'Task is waiting to start...'`) — there is no
`NotFound` status anywhere in the endpoint. -/
theorem unknown_id_status_cex :
    (get_task_status macFix 0 storeEmpty "missing-id").state = "PENDING" ∧
    (get_task_status macFix 0 storeEmpty "missing-id").state ≠ "NotFound" ∧
    (get_task_status macFix 0 storeEmpty "missing-id").statusMsg =
      some "Task is waiting to start..." :=
  ⟨by decide, by decide, by decide⟩

/-- **C9** (amended): for every job id never issued by submission (no state
record in the backend), the status endpoint returns the well-formed `PENDING`
status shape with the message `'Task is waiting to start...'` — not an error,
but also indistinguishable from a job that has not started yet, rather than a
distinct `NotFound` status. -/
theorem unknown_id_status_pending (mac : String → String) (now : Int)
    (store : String → Option CeleryMeta) (task_id : String)
    (h : store task_id = none) :
    get_task_status mac now store task_id =
      ⟨task_id, "PENDING", some "Task is waiting to start...", none⟩ := by
  simp [get_task_status, asyncResultState, h]

/-- Closed witness for `unknown_id_status_pending`. -/
theorem unknown_id_status_pending_witness :
    storeEmpty "job2" = none ∧
    get_task_status macFix 0 storeEmpty "job2" =
      ⟨"job2", "PENDING", some "Task is waiting to start...", none⟩ :=
  ⟨rfl, unknown_id_status_pending macFix 0 storeEmpty "job2" rfl⟩

end ToSpeech
